import Mathlib

/-!
Verification of the RouterBuilder specification against a shallow embedding of
src/lib/RouterBuilder.js (the blueprint route-binding layer).

The embedding translates the source file function by function:
JavaScript objects that the builder reads and writes become association lists
with JavaScript property-set semantics (updating an existing key in place,
appending a new key), exceptions become an explicit result type carrying the
state at the moment of the throw, and the mutable express router becomes a
record of registration lists threaded through the functions.
-/

namespace Blueprint

/-! ## JavaScript object and array primitives -/

/-- Property write on a JavaScript object, modelled on an association list:
an existing key keeps its position and is updated, a new key is appended
(insertion order, as JavaScript enumerates string keys). -/
def setProp {α : Type} : List (String × α) → String → α → List (String × α)
  | [], k, v => [(k, v)]
  | (k', v') :: rest, k, v =>
    if k' = k then (k', v) :: rest else (k', v') :: setProp rest k v

/-- Property read on a JavaScript object: the value at the key, if present. -/
def getProp {α : Type} : List (String × α) → String → Option α
  | [], _ => none
  | (k', v') :: rest, k => if k' = k then some v' else getProp rest k

theorem getProp_setProp_self {α : Type} (o : List (String × α)) (k : String) (v : α) :
    getProp (setProp o k v) k = some v := by
  induction o with
  | nil => simp [setProp, getProp]
  | cons hd tl ih =>
    obtain ⟨a, b⟩ := hd
    by_cases h : a = k
    · simp [setProp, getProp, h]
    · simp [setProp, getProp, h, ih]

theorem getProp_setProp_ne {α : Type} (o : List (String × α)) (k k' : String) (v : α)
    (h : k' ≠ k) : getProp (setProp o k v) k' = getProp o k' := by
  induction o with
  | nil => simp [setProp, getProp, Ne.symm h]
  | cons hd tl ih =>
    obtain ⟨a, b⟩ := hd
    by_cases ha : a = k
    · subst ha
      simp [setProp, getProp, Ne.symm h]
    · simp [setProp, getProp, ha, ih]

/-- Character-list prefix test (structural, so that concrete specifications
evaluate by definitional reduction). -/
def charsStartWith : List Char → List Char → Bool
  | _, [] => true
  | [], _ :: _ => false
  | c :: cs, d :: ds => c = d && charsStartWith cs ds

/-- String.prototype.startsWith. -/
def strStartsWith (s pre : String) : Bool :=
  charsStartWith s.data pre.data

/-- String.prototype.endsWith (the polyfill at RouterBuilder.js lines
181-185 checks the suffix position with indexOf; the behavior on the inputs
used is a plain suffix test). -/
def strEndsWith (s suf : String) : Bool :=
  charsStartWith s.data.reverse suf.data.reverse

/-- String.prototype.slice (n) for a non-negative start: drop the first n
characters. -/
def strDrop (s : String) (n : Nat) : String :=
  String.mk (s.data.drop n)

/-- String.prototype.toLowerCase. -/
def strToLower (s : String) : String :=
  String.mk (s.data.map Char.toLower)

/-- Split a character list at every occurrence of the separator. -/
def charSplit (sep : Char) : List Char → List (List Char)
  | [] => [[]]
  | c :: cs =>
    let rest := charSplit sep cs
    if c = sep then [] :: rest
    else
      match rest with
      | [] => [[c]]
      | g :: gs => (c :: g) :: gs

/-- String.prototype.split with a one-character separator: splitting the
empty string yields one empty part, as in JavaScript. -/
def strSplit (sep : Char) (s : String) : List String :=
  (charSplit sep s.data).map (fun cs => String.mk cs)

/-- Array.prototype.indexOf: index of the first occurrence, or -1. -/
def jsIndexOf (xs : List String) (x : String) : Int :=
  match xs.findIdx? (· = x) with
  | some i => (i : Int)
  | none => -1

/-- Array.prototype.splice with delete count one: a negative start counts from
the end of the array and is clamped at zero, so splice(-1, 1) removes the last
element of a non-empty array; a start at or past the length removes nothing. -/
def jsSpliceRemoveOne (xs : List String) (start : Int) : List String :=
  let s : Nat := if start < 0 then (start + xs.length).toNat else start.toNat
  xs.take s ++ xs.drop (s + 1)

/-! ## JavaScript error values and the error responder

The error responder (handleError, RouterBuilder.js lines 40-90) dispatches on
typeof and instanceof. Its error argument is modelled as a JavaScript value.

Modelled from the spec: the errors module (lib/errors, required at line 9) is
not under src/; following section 4.4 of the spec, a typed domain error
(errors.Error) either carries an HTTP status code (HttpError) or not
(BlueprintError), and exposes a code, a message, and optional details, with
accept dispatching a visitor on the two variants. These are the vhttpError
and vblueprintError constructors below. -/
inductive JSVal where
  /-- undefined (typeof "undefined") -/
  | vundefined : JSVal
  /-- null (typeof "object") -/
  | vnull : JSVal
  /-- a boolean (typeof "boolean") -/
  | vbool : Bool → JSVal
  /-- a number (typeof "number"); numbers relevant here are integral -/
  | vnum : Int → JSVal
  /-- a string (typeof "string") -/
  | vstr : String → JSVal
  /-- a plain object (typeof "object", not an Error instance) -/
  | vobj : List (String × JSVal) → JSVal
  /-- an array (typeof "object", not an Error instance) -/
  | varr : List JSVal → JSVal
  /-- a plain JavaScript Error: only the message is guaranteed -/
  | verror : String → JSVal
  /-- errors.HttpError: status code, error code, message, optional details -/
  | vhttpError : Nat → String → String → Option JSVal → JSVal
  /-- errors.BlueprintError: error code, message, optional details -/
  | vblueprintError : String → String → Option JSVal → JSVal

/-- The typeof operator on the modelled values. Note typeof null is "object". -/
def jsTypeof : JSVal → String
  | .vundefined => "undefined"
  | .vnull => "object"
  | .vbool _ => "boolean"
  | .vnum _ => "number"
  | .vstr _ => "string"
  | .vobj _ => "object"
  | .varr _ => "object"
  | .verror _ => "object"
  | .vhttpError _ _ _ _ => "object"
  | .vblueprintError _ _ _ => "object"

/-- JavaScript truthiness of the modelled values. -/
def jsTruthy : JSVal → Bool
  | .vundefined => false
  | .vnull => false
  | .vbool b => b
  | .vnum n => n ≠ 0
  | .vstr s => s ≠ ""
  | .vobj _ => true
  | .varr _ => true
  | .verror _ => true
  | .vhttpError _ _ _ _ => true
  | .vblueprintError _ _ _ => true

/-- The body written to the response sink: plain text or a JSON value. -/
inductive ResponseBody where
  | text : String → ResponseBody
  | json : JSVal → ResponseBody

/-- The express response object, reduced to the channels handleError touches:
res.status, res.type and res.send. -/
structure ResponseSt where
  status : Option Nat := none
  contentType : Option String := none
  body : Option ResponseBody := none

def emptyResponse : ResponseSt := {}

/-- handleError (RouterBuilder.js lines 40-90). Dispatch mirrors the source:
the typeof check sends strings to the 400 plain-text branch and every object
(including null, arrays and Error instances) into the object branch, which
first sets the JSON content type and then dispatches on instanceof; any value
of another typeof falls through both branches and the response is untouched.
For a blueprint error, err.accept visits visitHttpError (status from the
error) or visitBlueprintError (status 500), and details is attached to the
errors object only when err.details is truthy. -/
def handleError (err : JSVal) (res : ResponseSt) : ResponseSt :=
  match err with
  | .vstr s =>
    -- res.status (400).type ("text/plain").send (err)
    { res with status := some 400, contentType := some "text/plain",
               body := some (.text s) }
  | .vhttpError statusCode code message details =>
    let res := { res with contentType := some "application/json" }
    let res := { res with status := some statusCode }
    let errorsObj := [("code", JSVal.vstr code), ("message", JSVal.vstr message)]
    let errorsObj := match details with
      | some d => if jsTruthy d then errorsObj ++ [("details", d)] else errorsObj
      | none => errorsObj
    { res with body := some (.json (.vobj [("errors", .vobj errorsObj)])) }
  | .vblueprintError code message details =>
    let res := { res with contentType := some "application/json" }
    let res := { res with status := some 500 }
    let errorsObj := [("code", JSVal.vstr code), ("message", JSVal.vstr message)]
    let errorsObj := match details with
      | some d => if jsTruthy d then errorsObj ++ [("details", d)] else errorsObj
      | none => errorsObj
    { res with body := some (.json (.vobj [("errors", .vobj errorsObj)])) }
  | .verror message =>
    -- plain Error instance: only the message attribute is guaranteed
    { res with contentType := some "application/json", status := some 500,
               body := some (.json (.vobj [("errors", .vobj [("message", .vstr message)])])) }
  | .vnull =>
    -- typeof null is "object" and null is not an Error instance
    { res with contentType := some "application/json", status := some 500,
               body := some (.json (.vobj [("errors", .vobj [("details", .vnull)])])) }
  | .vobj fields =>
    { res with contentType := some "application/json", status := some 500,
               body := some (.json (.vobj [("errors", .vobj [("details", .vobj fields)])])) }
  | .varr elems =>
    { res with contentType := some "application/json", status := some 500,
               body := some (.json (.vobj [("errors", .vobj [("details", .varr elems)])])) }
  | _ => res

/-! ## The declarative-schema validation wrapper (request time) -/

/-- Property read on an arbitrary JavaScript value: a missing property is
undefined. Only plain objects carry readable properties in this model; the
one use below reads a property off a validation-errors value, which never
has it. -/
def jsGetProp (v : JSVal) (k : String) : JSVal :=
  match v with
  | .vobj fields => (getProp fields k).getD .vundefined
  | _ => .vundefined

/-- A constructor call, new callee(args). None of the modelled values is a
function, so the call always throws a TypeError naming the callee
expression. -/
def jsConstruct (calleeExpr : String) (callee : JSVal) (args : List JSVal) :
    Except JSVal JSVal :=
  match callee, args with
  | _, _ => .error (.verror (calleeExpr ++ " is not a constructor"))

/-- What a validation middleware unit does with a request: call next, or
write a response and stop. -/
inductive WrapperOutcome where
  | next : WrapperOutcome
  | responded : ResponseSt → WrapperOutcome

/-- The middleware returned by validateBySchema (RouterBuilder.js lines
92-108), run on a request whose req.validationErrors () evaluates to
validationResult. Inside the wrapper, var errors = req.validationErrors ()
shadows the errors module imported at line 9, so new errors.HttpError (400,
...) looks the HttpError property up on the validation-errors value itself;
the property is undefined, the constructor call throws a TypeError, and the
surrounding try/catch hands that TypeError to handleError. -/
def validateBySchemaRun (validationResult : JSVal) (res : ResponseSt) :
    WrapperOutcome :=
  -- var errors = req.validationErrors (); if (!errors) return next ();
  if ¬ jsTruthy validationResult then .next
  else
    -- var err = new errors.HttpError (400, "validation_failed",
    --                                 "Request validation failed", errors);
    match jsConstruct "errors.HttpError" (jsGetProp validationResult "HttpError")
        [.vnum 400, .vstr "validation_failed", .vstr "Request validation failed",
         validationResult] with
    | .error ex => .responded (handleError ex res)
    | .ok err => .responded (handleError err res)

/-! ## RouterBuilder state: controllers, options, specification trees

Middleware functions are identified by name (a String); the builder never
calls them at wiring time, it only arranges them into pipelines. -/

/-- One unit of an assembled middleware pipeline, tagged by how
defineVerbHandler produced it. -/
inductive MWItem where
  /-- a plain middleware function: a before/after hook, or a function result
  of a controller method, pushed as-is -/
  | raw : String → MWItem
  /-- an array result of a controller method, pushed as one element -/
  | rawList : List String → MWItem
  /-- validateByFunction wrapping the custom validation function -/
  | validateFn : String → MWItem
  /-- validateBySchema wrapping the declarative schema -/
  | validateSchema : String → MWItem
  /-- sanitizer wrapping the sanitize function -/
  | sanitizeFn : String → MWItem
  /-- executor wrapping the execute function -/
  | executeFn : String → MWItem
  /-- render wrapping a view name -/
  | renderView : String → MWItem
  deriving DecidableEq, Repr

/-- The shape of the validate property of a controller-method result:
a function, an express-validator schema object, or anything else
(the unsupported case, e.g. an array). -/
inductive ValidateVal where
  | vfunc : String → ValidateVal
  | vschema : String → ValidateVal
  | vother : ValidateVal
  deriving DecidableEq, Repr

/-- The value returned by invoking a controller method at wiring time:
a middleware function, an array of middleware functions, an object with
optional validate/sanitize and an execute property, or some other value
(which defineVerbHandler rejects). -/
inductive MethodResult where
  | mwFunc : String → MethodResult
  | mwList : List String → MethodResult
  | obj (validate : Option ValidateVal) (sanitize : Option String)
        (execute : Option String) : MethodResult
  | other : MethodResult

/-- The wiring-time invocation argument: params = (path: path) plus
params.options when opts.options is present (options objects are truthy). -/
structure InvokeParams where
  path : String
  options : Option String := none

/-- A controller method bound to its controller (the MethodCall helper).
call models invoking it with the params object (defineVerbHandler line 391);
callNoArgs models invoking it with no arguments (addParameter line 532),
yielding a parameter handler function or null/undefined (none). -/
structure CMethod where
  call : InvokeParams → MethodResult
  callNoArgs : Option String := none

/-- One action definition: a verb, the controller method it maps to, and an
optional sub-path. -/
structure ActionDef where
  verb : String
  method : String
  path : Option String := none
  deriving DecidableEq, Repr

/-- One action-name entry of a controller actions mapping: a single action
definition object, or an array of definitions each processed independently.
(Values of any other shape are skipped by the source and are not modelled.) -/
inductive ActionsEntry where
  | one (d : ActionDef)
  | many (ds : List ActionDef)
  deriving DecidableEq, Repr

/-- A loaded controller: its named methods, and for resource controllers the
actions mapping and the resourceId property. An absent method models a
missing/undefined property (which is falsy). -/
structure Controller where
  methods : String → Option CMethod
  actions : Option (List (String × ActionsEntry)) := none
  resourceId : Option String := none

/-- The options object of a verb node: optional before/after hook arrays, an
action reference, a view name, and an options object (modelled by an opaque
tag; options objects are truthy whenever present). A none field models an
undefined property. -/
structure VerbOpts where
  before : Option (List String) := none
  action : Option String := none
  view : Option String := none
  options : Option String := none
  after : Option (List String) := none
  deriving DecidableEq, Repr

/-- The options object of a resource node. -/
structure ResourceOpts where
  controller : Option String := none
  allow : Option (List String) := none
  deny : Option (List String) := none
  options : Option String := none
  deriving DecidableEq, Repr

/-- The opts argument of addParameter: a raw handler function, an object
with an optional action property, or a value of another shape (rejected). -/
inductive ParamOpts where
  | pfunc (handler : String)
  | pobj (action : Option String)
  | pother
  deriving DecidableEq, Repr

/-- A specification-tree value. The source manipulates untyped JavaScript
values; here each value is tagged with the shape the builder reads off it:
mount is a middleware function or array of middleware functions, mapping is
a plain key-value object, and param/verb/resource are the option objects
consumed under parameter keys and verb keys. A raw handler function sitting
under a parameter key is written param (ParamOpts.pfunc f). -/
inductive SpecEntry where
  | mount (handlers : List String)
  | mapping (entries : List (String × SpecEntry))
  | param (p : ParamOpts)
  | verb (o : VerbOpts)
  | resource (o : ResourceOpts)

/-- One registration made on a verb method of the express router:
verbFunc.call (self._router, path, middleware). -/
structure RouteReg where
  verb : String
  path : String
  middleware : List MWItem
  deriving DecidableEq, Repr

/-- The express router, reduced to the registrations the builder makes on
it: verb routes, use mounts, and parameter handlers, each an append-only
list in registration order. -/
structure RouterSt where
  routes : List RouteReg := []
  uses : List (String × List String) := []
  params : List (String × String) := []
  deriving DecidableEq, Repr

/-- The parameter handler the router primitive applies for a name: the most
recently registered one. -/
def paramHandlerInEffect (r : RouterSt) (name : String) : Option String :=
  (r.params.reverse.find? (fun q => q.1 = name)).map (fun q => q.2)

/-- The RouterBuilder instance: the controller registry (objectPath.get is
modelled as a lookup function from the dotted name), the base path, the
router being populated, and the _params cache of parameter names already
added. -/
structure Builder where
  controllers : String → Option Controller
  basePath : String := "/"
  router : RouterSt := {}
  paramsCache : List String := []

/-- The outcome of a builder step: normal completion or a thrown wiring-time
error, in both cases carrying the builder state at that moment (a throw
aborts the walk but does not roll anything back). -/
inductive JResult (α : Type) where
  | ok : Builder → α → JResult α
  | err : Builder → String → JResult α

def SINGLE_ACTION_CONTROLLER_METHOD : String := "__invoke"

def SINGLE_RESOURCE_BASE_PATH : String := "/:rcId"

/-- Truthiness of an optional string property (undefined and the empty
string are falsy). -/
def strTruthy : Option String → Bool
  | some s => s ≠ ""
  | none => false

/-- resolveController (RouterBuilder.js lines 208-232): split the action
reference on the separator, default a one-part reference to the reserved
single-action method name, look up the controller and then the method, and
return the bound method. -/
def resolveController (b : Builder) (action : String) : Except String CMethod :=
  let parts := strSplit '@' action
  if parts.length < 1 ∨ parts.length > 2 then
    .error ("invalid action format [" ++ action ++ "]")
  else
    let controllerName := parts.headD ""
    let actionName :=
      if parts.length = 2 then parts.getD 1 "" else SINGLE_ACTION_CONTROLLER_METHOD
    match b.controllers controllerName with
    | none => .error ("controller " ++ controllerName ++ " not found")
    | some controller =>
      match controller.methods actionName with
      | none =>
        .error ("controller " ++ controllerName ++ " does not define method " ++ actionName)
      | some controllerMethod => .ok controllerMethod

/-! ## defineVerbHandler -/

/-- The verb methods the express router object exposes; the source checks
self._router[verb.toLowerCase ()] for existence. -/
def expressRouterMethods : List String :=
  ["get", "post", "put", "head", "delete", "options", "patch", "all",
   "checkout", "copy", "lock", "merge", "mkactivity", "mkcol", "move",
   "notify", "propfind", "proppatch", "purge", "report", "search",
   "subscribe", "trace", "unlock", "unsubscribe"]

/-- Append one route registration to the router. -/
def registerRoute (b : Builder) (verb path : String) (mw : List MWItem) : Builder :=
  { b with router := { b.router with routes := b.router.routes ++ [⟨verb, path, mw⟩] } }

/-- Reading verb options off a value of another shape yields undefined for
every property. -/
def entryAsVerbOpts : SpecEntry → VerbOpts
  | .verb o => o
  | _ => {}

/-- Reading resource options off a value of another shape yields undefined
for every property. -/
def entryAsResourceOpts : SpecEntry → ResourceOpts
  | .resource o => o
  | _ => {}

/-- The value under a parameter key, as addParameter classifies it: an
explicit param value is used as-is; any object-shaped value (mapping,
resource options, middleware array) passes the isObject test and exposes
its action property, which is undefined except for a verb-shaped object. -/
def entryAsParamOpts : SpecEntry → ParamOpts
  | .param p => p
  | .verb o => .pobj o.action
  | .mapping _ => .pobj none
  | .resource _ => .pobj none
  | .mount _ => .pobj none

/-- defineVerbHandler (RouterBuilder.js lines 368-447): check the verb
exists on the router, require an action or view property, start the
pipeline with opts.before, build the core from the resolved action result
(function, array, or validate/sanitize/execute object) or the view, append
opts.after, and register the pipeline if it is non-empty. -/
def defineVerbHandler (b : Builder) (verb path : String) (opts : VerbOpts) :
    JResult Unit :=
  -- var verbFunc = self._router[verb.toLowerCase ()]; if (!verbFunc) throw ...
  if ¬ expressRouterMethods.contains (strToLower verb) then
    .err b (verb ++ " is not a valid http verb")
  -- if (opts.action === undefined && opts.view === undefined) throw ...
  else if opts.action = none ∧ opts.view = none then
    .err b (verb ++ " " ++ path ++ " must define an action or view property")
  else
    -- var middleware = opts.before || [];
    let before := (opts.before.getD []).map MWItem.raw
    -- if (opts.action) { ... } else if (opts.view) { ... }
    let core : Except String (List MWItem) :=
      if strTruthy opts.action then
        match resolveController b (opts.action.getD "") with
        | .error msg => .error msg
        | .ok controllerMethod =>
          -- var params = {path: path}; if (opts.options) params.options = ...;
          -- var result = controller.invoke (params);
          match controllerMethod.call { path := path, options := opts.options } with
          | .mwFunc f => .ok [MWItem.raw f]
          | .mwList fs => .ok [MWItem.rawList fs]
          | .obj validate sanitize execute =>
            match execute with
            | none =>
              .error ("Controller method must define an execute property [" ++
                verb ++ " " ++ path ++ "]")
            | some executeFn =>
              let sanitizeUnits := match sanitize with
                | some s => [MWItem.sanitizeFn s]
                | none => []
              match validate with
              | none => .ok (sanitizeUnits ++ [MWItem.executeFn executeFn])
              | some (.vfunc f) =>
                .ok (MWItem.validateFn f :: sanitizeUnits ++ [MWItem.executeFn executeFn])
              | some (.vschema s) =>
                .ok (MWItem.validateSchema s :: sanitizeUnits ++ [MWItem.executeFn executeFn])
              | some .vother => .error "Unsupported validate value"
          | .other => .error "Return type of controller method must be a function or object"
      else if strTruthy opts.view then
        .ok [MWItem.renderView (opts.view.getD "")]
      else
        .ok []
    match core with
    | .error msg => .err b msg
    | .ok coreUnits =>
      -- if (opts.after) middleware = middleware.concat (opts.after);
      let after := (opts.after.getD []).map MWItem.raw
      let middleware := before ++ coreUnits ++ after
      -- if (middleware.length > 0) verbFunc.call (self._router, path, middleware);
      if middleware.length > 0 then
        .ok (registerRoute b (strToLower verb) path middleware) ()
      else .ok b ()

/-! ## addParameter -/

/-- addParameter (RouterBuilder.js lines 514-548): return immediately when
the name is cached and override is not requested; otherwise strip the first
character of the name, obtain the handler from the opts (a raw function, or
an action reference resolved and invoked with no arguments), register it on
the router when it is not null, and cache the name if it is not cached. -/
def addParameter (b : Builder) (param : String) (opts : ParamOpts)
    (override : Bool) : JResult Unit :=
  -- if (this._params.indexOf (param) !== -1 && !override) return;
  if b.paramsCache.contains param ∧ ¬ override then .ok b ()
  else
    -- var rawParam = param.slice (1);
    let rawParam := strDrop param 1
    let handlerResult : Except String (Option String) :=
      match opts with
      | .pfunc f => .ok (some f)
      | .pobj action =>
        if strTruthy action then
          match resolveController b (action.getD "") with
          | .error msg => .error msg
          | .ok controllerMethod => .ok controllerMethod.callNoArgs
        else .error ("Invalid parameter specification (" ++ param ++ ")")
      | .pother => .error ("opts must be a Function or Object [param=" ++ param ++ "]")
    match handlerResult with
    | .error msg => .err b msg
    | .ok handler =>
      -- if (handler != null) this._router.param (rawParam, handler);
      let b1 := match handler with
        | some h =>
          { b with router := { b.router with params := b.router.params ++ [(rawParam, h)] } }
        | none => b
      -- if (this._params.indexOf (param) === -1) this._params.push (param);
      let b2 := if b1.paramsCache.contains param then b1
                else { b1 with paramsCache := b1.paramsCache ++ [param] }
      .ok b2 ()

/-! ## Resource expansion -/

/-- makeAction (RouterBuilder.js lines 23-30): the action object
(action: controller + "@" + method) with options attached when truthy;
the object is later consumed as the options of a verb key. -/
def makeAction (controller method : String) (options : Option String) : SpecEntry :=
  .verb { action := some (controller ++ "@" ++ method), options := options }

/-- The deny loop (RouterBuilder.js lines 301-305): for each denied name,
allowed.splice (allowed.indexOf (name), 1). When the name is absent,
indexOf yields -1 and splice (-1, 1) removes the last element. -/
def applyDeny (allowed deny : List String) : List String :=
  deny.foldl (fun acc d => jsSpliceRemoveOne acc (jsIndexOf acc d)) allowed

/-- The two specification objects defineResource accumulates: spec (the
collective resources) and singleSpec (the single resource). -/
structure ResourceSpecAcc where
  coll : List (String × SpecEntry) := []
  single : List (String × SpecEntry) := []

/-- processAction (RouterBuilder.js lines 324-350). With a truthy path that
starts with SINGLE_RESOURCE_BASE_PATH (the literal "/:rcId"), the remainder
selects the base single-resource binding (empty remainder) or a sub-path of
singleSpec; the sub-path entry is created as an empty object when its current
value is falsy (if (!singleSpec[part]) singleSpec[part] = ( );) and the verb
is then set inside it. With any other truthy path, the source runs
spec[action.path] = ( ); followed by spec[action.path][action.verb] = ...,
unconditionally resetting the entry before binding the verb. With no truthy
path, the verb is bound directly on spec. Setting a property on a non-object
value (the sub-path entry holding an action object) mutates a value no route
is ever read from and is modelled as leaving the accumulator unchanged. -/
def processAction (controllerName : String) (options : Option String)
    (acc : ResourceSpecAcc) (a : ActionDef) : ResourceSpecAcc :=
  let bindCollVerb :=
    { acc with coll := setProp acc.coll a.verb (makeAction controllerName a.method options) }
  match a.path with
  | some p =>
    if p = "" then bindCollVerb
    else if strStartsWith p SINGLE_RESOURCE_BASE_PATH then
      let part := strDrop p SINGLE_RESOURCE_BASE_PATH.length
      if part = "" then
        { acc with
          single := setProp acc.single a.verb (makeAction controllerName a.method options) }
      else
        match getProp acc.single part with
        | none =>
          { acc with
            single := setProp acc.single part
              (.mapping (setProp [] a.verb (makeAction controllerName a.method options))) }
        | some (.mapping m) =>
          { acc with
            single := setProp acc.single part
              (.mapping (setProp m a.verb (makeAction controllerName a.method options))) }
        | some _ => acc
    else
      { acc with
        coll := setProp acc.coll p
          (.mapping (setProp [] a.verb (makeAction controllerName a.method options))) }
  | none => bindCollVerb

/-- The allowed.forEach loop (RouterBuilder.js lines 312-351): look each
allowed name up in the actions mapping, process an array entry definition by
definition and an object entry once; a name that is not a key of the mapping
is skipped. -/
def buildResourceSpec (controllerName : String) (options : Option String)
    (actions : List (String × ActionsEntry)) (allowed : List String) :
    ResourceSpecAcc :=
  allowed.foldl (fun acc name =>
    match getProp actions name with
    | some (.many ds) => ds.foldl (processAction controllerName options) acc
    | some (.one d) => processAction controllerName options acc d
    | none => acc) {}

/-- The specification defineResource hands back to addSpecification: the
collective spec with the single-resource spec nested under
"/:" + resourceId (RouterBuilder.js line 355), overwriting any entry the
collective spec already had at that key. -/
def assembleResourceSpec (controllerName : String) (options : Option String)
    (actions : List (String × ActionsEntry)) (allowed : List String)
    (resourceId : String) : SpecEntry :=
  let acc := buildResourceSpec controllerName options actions allowed
  .mapping (setProp acc.coll ("/:" ++ resourceId) (.mapping acc.single))

/-- defineResource (RouterBuilder.js lines 263-358): resolve the controller
named by the options, require its actions and resourceId, reject a node
carrying both allow and deny, compute the allowed names (all action keys,
replaced by allow when present, pruned by the deny loop when present),
build the resource specification and feed it back into addSpecification at
the resource path (passed in as the addSpec continuation). -/
def defineResource (addSpec : Builder → SpecEntry → String → JResult Unit)
    (b : Builder) (path : String) (opts : ResourceOpts) : JResult Unit :=
  -- var controllerName = opts.controller; if (!controllerName) throw ...
  if ¬ strTruthy opts.controller then .err b (path ++ " is missing controller property")
  else
    let controllerName := opts.controller.getD ""
    match b.controllers controllerName with
    | none => .err b (controllerName ++ " controller does not exist")
    | some controller =>
      match controller.actions with
      | none => .err b (controllerName ++ " must define actions property")
      | some actions =>
        if ¬ strTruthy controller.resourceId then
          .err b (controllerName ++ " must define resourceId property")
        else
          let resourceId := controller.resourceId.getD ""
          if opts.allow.isSome ∧ opts.deny.isSome then
            .err b (path ++ " can only define allow or deny property, not both")
          else
            -- var allowed = Object.keys (actions); if (opts.allow) allowed = opts.allow;
            let allowed := match opts.allow with
              | some a => a
              | none => actions.map (fun e => e.1)
            -- if (opts.deny) { ... splice ... }
            let allowed := match opts.deny with
              | some d => applyDeny allowed d
              | none => allowed
            addSpec b (assembleResourceSpec controllerName opts.options actions allowed resourceId) path

/-! ## addSpecification -/

/-- processUse (RouterBuilder.js lines 458-461): mount the handlers at the
path; express rejects a non-middleware value. -/
def processUse (b : Builder) (path : String) (e : SpecEntry) : JResult Unit :=
  match e with
  | .mount handlers =>
    .ok { b with router := { b.router with uses := b.router.uses ++ [(path, handlers)] } } ()
  | _ => .err b "Router.use () requires middleware functions"

/-- processVerb (RouterBuilder.js lines 253-257): the verb "resource"
delegates to defineResource, every other verb to defineVerbHandler. -/
def processVerb (addSpec : Builder → SpecEntry → String → JResult Unit)
    (b : Builder) (verb currPath : String) (e : SpecEntry) : JResult Unit :=
  if verb = "resource" then defineResource addSpec b currPath (entryAsResourceOpts e)
  else defineVerbHandler b verb currPath (entryAsVerbOpts e)

/-- The key loop of addSpecification (RouterBuilder.js lines 480-505),
dispatching each key except head by its shape: "use" mounts the value at the
current path, a slash key recurses with the joined path (avoiding a double
separator), a colon key adds a parameter, and any other key is a verb. A
thrown error aborts the remaining keys. -/
def processEntryList (addSpec : Builder → SpecEntry → String → JResult Unit)
    (b : Builder) (currPath : String) :
    List (String × SpecEntry) → JResult Unit
  | [] => .ok b ()
  | (key, e) :: rest =>
    if key = "head" then processEntryList addSpec b currPath rest
    else
      let step : JResult Unit :=
        if key = "use" then processUse b currPath e
        else if strStartsWith key "/" then
          let innerPath := currPath ++ (if strEndsWith currPath "/" then strDrop key 1 else key)
          addSpec b e innerPath
        else if strStartsWith key ":" then
          addParameter b key (entryAsParamOpts e) false
        else
          processVerb addSpec b key currPath e
      match step with
      | .ok b1 _ => processEntryList addSpec b1 currPath rest
      | .err b1 msg => .err b1 msg

/-- addSpecification (RouterBuilder.js lines 243-512), with explicit fuel
bounding the re-entry depth (defineResource feeds a freshly built
specification back in; every concrete walk terminates, and all theorems
below either evaluate on concrete input or concern a single step). An
undefined or empty current path falls back to the base path. A middleware
function or array mounts at the current path; a mapping first processes a
head entry, then every key in insertion order; any other value is not a
valid specification. -/
def addSpecification : Nat → Builder → SpecEntry → Option String → JResult Unit
  | 0, b, _, _ => .err b "model: recursion fuel exhausted"
  | Nat.succ fuel, b, spec, currPathArg =>
    -- if (!currPath) currPath = this._basePath;
    let currPath := match currPathArg with
      | some p => if p = "" then b.basePath else p
      | none => b.basePath
    match spec with
    | .mount handlers =>
      -- _.isArray (spec) || _.isFunction (spec): this._router.use (currPath, spec);
      .ok { b with router := { b.router with uses := b.router.uses ++ [(currPath, handlers)] } } ()
    | .mapping entries =>
      -- if (spec.head) processVerb ("head", currPath, spec.head);
      let afterHead : JResult Unit :=
        match getProp entries "head" with
        | some e =>
          processVerb (fun b1 s p => addSpecification fuel b1 s (some p)) b "head" currPath e
        | none => .ok b ()
      match afterHead with
      | .err b1 msg => .err b1 msg
      | .ok b1 _ =>
        processEntryList (fun b2 s p => addSpecification fuel b2 s (some p)) b1 currPath entries
    | _ =>
      .err b "Specification must be a object, router function, or an array of router functions"

/-! ## Shared concrete fixtures used by witnesses and evaluations -/

/-- A wiring-time method returning the full descriptor form: a validation
function, a sanitize function and an execute function. -/
def fullMethod : CMethod :=
  { call := fun _ => .obj (some (.vfunc "checkBody")) (some "cleanBody") (some "runAction") }

/-- A controller exposing one method, doIt. -/
def demoController : Controller :=
  { methods := fun n => if n = "doIt" then some fullMethod else none }

/-- A builder whose registry holds one controller under the name demo. -/
def demoBuilder : Builder :=
  { controllers := fun n => if n = "demo" then some demoController else none }

/-- A builder that has already registered the parameter :id. -/
def paramBuilder : Builder :=
  { controllers := fun _ => none,
    router := { params := [("id", "firstHandler")] },
    paramsCache := [":id"] }

/-- The resource-controller actions for the overwrite scenario: two allowed
actions whose definitions share the collective sub-path /count under
different verbs. -/
def countActions : List (String × ActionsEntry) :=
  [("a", .one { verb := "get", method := "getCount", path := some "/count" }),
   ("b", .one { verb := "post", method := "postCount", path := some "/count" })]

/-- The resource controller for the overwrite scenario. -/
def countController : Controller :=
  { methods := fun n =>
      if n = "getCount" then some { call := fun _ => .mwFunc "getCountMw" }
      else if n = "postCount" then some { call := fun _ => .mwFunc "postCountMw" }
      else none,
    actions := some countActions,
    resourceId := some "id" }

/-- A builder whose registry holds the resource controller under the name
counters. -/
def countBuilder : Builder :=
  { controllers := fun n => if n = "counters" then some countController else none }

/-- The verb-route registrations present after a builder step. -/
def resultRoutes : JResult Unit → List RouteReg
  | .ok b _ => b.router.routes
  | .err b _ => b.router.routes

/-- Whether a builder step completed without throwing. -/
def resultOk : JResult Unit → Bool
  | .ok _ _ => true
  | .err _ _ => false

/-- Expanding the resource node (controller: counters) at path /c. -/
def resourceRunC3 : JResult Unit :=
  addSpecification 8 countBuilder
    (.mapping [("resource", .resource { controller := some "counters" })]) (some "/c")

/-- The response the schema-validation wrapper actually produces on a failed
validation: the generic-Error branch of handleError applied to the TypeError
raised by the shadowed constructor lookup. -/
def schemaFailureResponse : ResponseSt :=
  { status := some 500, contentType := some "application/json",
    body := some (.json (.vobj [("errors",
      .vobj [("message", .vstr "errors.HttpError is not a constructor")])])) }

/-! ## Claims about the error responder -/

/-- C7: handleError maps errors exactly as specified: a plain string yields
status 400 with a plain-text body equal to the string; a typed domain error
carrying an HTTP status code yields that status with JSON body
errors.code / errors.message, with errors.details attached when the details
value is present (details values are objects, hence truthy); a bare generic
Error yields status 500 with JSON body errors.message; any other object
yields status 500 with JSON body errors.details holding the object. -/
theorem handleError_contract :
    (∀ s res, handleError (.vstr s) res
      = { res with status := some 400, contentType := some "text/plain",
                   body := some (.text s) })
  ∧ (∀ sc c m res, handleError (.vhttpError sc c m none) res
      = { res with status := some sc, contentType := some "application/json",
                   body := some (.json (.vobj [("errors",
                     .vobj [("code", .vstr c), ("message", .vstr m)])])) })
  ∧ (∀ sc c m d res, jsTruthy d = true → handleError (.vhttpError sc c m (some d)) res
      = { res with status := some sc, contentType := some "application/json",
                   body := some (.json (.vobj [("errors",
                     .vobj [("code", .vstr c), ("message", .vstr m), ("details", d)])])) })
  ∧ (∀ m res, handleError (.verror m) res
      = { res with status := some 500, contentType := some "application/json",
                   body := some (.json (.vobj [("errors",
                     .vobj [("message", .vstr m)])])) })
  ∧ (∀ fields res, handleError (.vobj fields) res
      = { res with status := some 500, contentType := some "application/json",
                   body := some (.json (.vobj [("errors",
                     .vobj [("details", .vobj fields)])])) }) := by
  refine ⟨fun s res => rfl, fun sc c m res => rfl, fun sc c m d res hd => ?_,
    fun m res => rfl, fun fields res => rfl⟩
  simp [handleError, hd]

/-- C7 witness: the typed-domain-error scenario of the claim at status 404
and message not found, with a details object attached. -/
theorem handleError_contract_witness :
    handleError (.vhttpError 404 "not_found" "not found"
        (some (.vobj [("id", .vstr "42")]))) emptyResponse
      = { status := some 404, contentType := some "application/json",
          body := some (.json (.vobj [("errors",
            .vobj [("code", .vstr "not_found"), ("message", .vstr "not found"),
                   ("details", .vobj [("id", .vstr "42")])])])) } :=
  handleError_contract.2.2.1 404 "not_found" "not found"
    (.vobj [("id", .vstr "42")]) emptyResponse rfl

/-- C10: for every error value whose typeof is neither string nor object
(numbers, booleans, undefined), handleError falls through both branches and
leaves the response untouched: no status is set and no body is sent. -/
theorem handleError_nonstring_nonobject_noop (err : JSVal) (res : ResponseSt)
    (hs : jsTypeof err ≠ "string") (ho : jsTypeof err ≠ "object") :
    handleError err res = res := by
  cases err <;> first | rfl | (exact absurd rfl hs) | (exact absurd rfl ho)

/-- C10 witness: a numeric error value leaves a fresh response untouched. -/
theorem handleError_nonstring_nonobject_noop_witness :
    handleError (.vnum 42) emptyResponse = emptyResponse :=
  handleError_nonstring_nonobject_noop (.vnum 42) emptyResponse
    (by decide) (by decide)

/-- C4: evaluation of the schema-validation wrapper at a failing request
(validationErrors yields a non-empty array). The local variable errors
shadows the errors module, so new errors.HttpError throws a TypeError and
the client receives status 500 with the TypeError message, not the claimed
status 400 HttpError with code validation_failed. -/
theorem validateBySchema_shadowed_errors_bug :
    validateBySchemaRun (.varr [.vstr "field invalid"]) emptyResponse
        = .responded schemaFailureResponse
      ∧ schemaFailureResponse.status = some 500 := ⟨rfl, rfl⟩

/-! ## Claims about resource expansion -/

/-- C1 counterexample: a controller whose resourceId is userId, with one
allowed action whose path is /:userId, exactly the single-resource prefix
the claim describes. The code compares against the literal constant /:rcId
instead, so the action is bound into the collective spec at the literal
path /:userId (and the single-resource spec stays empty); nesting the empty
single-resource spec under /:userId then overwrites even that binding, so
the assembled specification holds no trace of the action. -/
theorem resource_single_prefix_counterexample :
    getProp (buildResourceSpec "users" none
        [("show", .one { verb := "get", method := "getOne", path := some "/:userId" })]
        ["show"]).single "get" = none
  ∧ buildResourceSpec "users" none
        [("show", .one { verb := "get", method := "getOne", path := some "/:userId" })]
        ["show"]
      = { coll := [("/:userId", .mapping [("get", makeAction "users" "getOne" none)])],
          single := [] }
  ∧ assembleResourceSpec "users" none
        [("show", .one { verb := "get", method := "getOne", path := some "/:userId" })]
        ["show"] "userId"
      = .mapping [("/:userId", .mapping [])] := ⟨rfl, rfl, rfl⟩

/-- C1 (amended): the prefix that routes an action definition into the
single-resource spec is the literal constant /:rcId
(SINGLE_RESOURCE_BASE_PATH), not /: followed by the controller resourceId.
For a truthy action path: if it starts with /:rcId, an empty remainder
binds the verb at the base of the single-resource spec and a non-empty
remainder binds it nested under the remainder key (here stated for a
remainder not yet present); otherwise the action is bound to the collective
spec at the literal path. The spec not targeted is untouched. -/
theorem processAction_prefix_rule (cn : String) (options : Option String)
    (acc : ResourceSpecAcc) (a : ActionDef) (p : String)
    (hp : a.path = some p) (hne : p ≠ "") :
    (strStartsWith p SINGLE_RESOURCE_BASE_PATH = true →
      strDrop p SINGLE_RESOURCE_BASE_PATH.length = "" →
        getProp (processAction cn options acc a).single a.verb
            = some (makeAction cn a.method options)
          ∧ (processAction cn options acc a).coll = acc.coll)
  ∧ (strStartsWith p SINGLE_RESOURCE_BASE_PATH = true →
      ∀ part, strDrop p SINGLE_RESOURCE_BASE_PATH.length = part → part ≠ "" →
      getProp acc.single part = none →
        getProp (processAction cn options acc a).single part
            = some (.mapping [(a.verb, makeAction cn a.method options)])
          ∧ (processAction cn options acc a).coll = acc.coll)
  ∧ (strStartsWith p SINGLE_RESOURCE_BASE_PATH = false →
        getProp (processAction cn options acc a).coll p
            = some (.mapping [(a.verb, makeAction cn a.method options)])
          ∧ (processAction cn options acc a).single = acc.single) := by
  refine ⟨fun hsw hrem => ?_, fun hsw part hpart hpne hfresh => ?_, fun hsw => ?_⟩
  · simp [processAction, hp, hne, hsw, hrem, getProp_setProp_self]
  · subst hpart
    simp [processAction, hp, hne, hsw, hpne, hfresh, getProp_setProp_self, setProp]
  · simp [processAction, hp, hne, hsw, getProp_setProp_self, setProp]

/-- C1 witness: an action with path /:rcId and an action with path
/:rcId/history land in the single-resource spec (at its base and nested
under /history), and an action with path /all lands in the collective
spec. -/
theorem processAction_prefix_rule_witness :
    (getProp (processAction "users" none {}
        { verb := "get", method := "getOne", path := some "/:rcId" }).single "get"
          = some (makeAction "users" "getOne" none)
      ∧ (processAction "users" none {}
          { verb := "get", method := "getOne", path := some "/:rcId" }).coll = [])
  ∧ (getProp (processAction "users" none {}
        { verb := "get", method := "getHistory", path := some "/:rcId/history" }).single "/history"
          = some (.mapping [("get", makeAction "users" "getHistory" none)])
      ∧ (processAction "users" none {}
          { verb := "get", method := "getHistory", path := some "/:rcId/history" }).coll = [])
  ∧ (getProp (processAction "users" none {}
        { verb := "get", method := "getAll", path := some "/all" }).coll "/all"
          = some (.mapping [("get", makeAction "users" "getAll" none)])
      ∧ (processAction "users" none {}
          { verb := "get", method := "getAll", path := some "/all" }).single = []) :=
  ⟨(processAction_prefix_rule "users" none {} _ "/:rcId" rfl (by decide)).1
      (by decide) (by decide),
   (processAction_prefix_rule "users" none {} _ "/:rcId/history" rfl (by decide)).2.1
      (by decide) "/history" (by decide) (by decide) rfl,
   (processAction_prefix_rule "users" none {} _ "/all" rfl (by decide)).2.2
      (by decide)⟩

/-- C2: evaluation of the deny loop at a deny list naming an action that is
not a key of the actions mapping. indexOf yields -1, and splice (-1, 1)
removes the last element of the allowed list, so the undenied action create
is removed. -/
theorem applyDeny_unknown_name_removes_last :
    applyDeny ["getAll", "create"] ["destroy"] = ["getAll"]
  ∧ jsIndexOf ["getAll", "create"] "destroy" = -1 := ⟨rfl, rfl⟩

/-- C3: evaluation of resource expansion at a resource node with two
(allowed action, definition) pairs whose definitions share the collective
sub-path /count under the verbs get and post. The unconditional reset
spec[action.path] = ( ) discards the get binding, so the expansion
completes without error but produces one registration, not two. -/
theorem resource_collective_path_overwrite :
    resultOk resourceRunC3 = true
  ∧ resultRoutes resourceRunC3
      = [{ verb := "post", path := "/c/count", middleware := [.raw "postCountMw"] }] :=
  ⟨rfl, rfl⟩

/-- C6: a resource node carrying both allow and deny raises a wiring-time
error before any specification is built or fed back into addSpecification,
whatever the continuation; the thrown result carries the builder unchanged,
so zero registrations are performed. -/
theorem defineResource_allow_deny_conflict
    (addSpec : Builder → SpecEntry → String → JResult Unit)
    (b : Builder) (path : String) (opts : ResourceOpts)
    (ha : opts.allow.isSome = true) (hd : opts.deny.isSome = true) :
    ∃ msg, defineResource addSpec b path opts = .err b msg := by
  unfold defineResource
  by_cases hctl : strTruthy opts.controller = true
  · rw [if_neg (not_not_intro hctl)]
    cases hreg : b.controllers (opts.controller.getD "") with
    | none =>
      simp only [hreg]
      exact ⟨_, rfl⟩
    | some controller =>
      cases hact : controller.actions with
      | none =>
        simp only [hreg, hact]
        exact ⟨_, rfl⟩
      | some actions =>
        by_cases hrid : strTruthy controller.resourceId = true
        · simp only [hreg, hact]
          rw [if_neg (not_not_intro hrid), if_pos ⟨ha, hd⟩]
          exact ⟨_, rfl⟩
        · simp only [hreg, hact]
          rw [if_pos hrid]
          exact ⟨_, rfl⟩
  · rw [if_pos hctl]
    exact ⟨_, rfl⟩

/-- C6 witness: a concrete conflicting resource node against the demo
builder throws with the builder unchanged. -/
theorem defineResource_allow_deny_conflict_witness :
    ∃ msg, defineResource (fun b2 _ _ => .ok b2 ()) demoBuilder "/w"
        { controller := some "missing", allow := some ["a"], deny := some ["b"] }
      = .err demoBuilder msg :=
  defineResource_allow_deny_conflict (fun b2 _ _ => .ok b2 ()) demoBuilder "/w"
    { controller := some "missing", allow := some ["a"], deny := some ["b"] } rfl rfl

/-! ## Claims about verb handlers and parameters -/

/-- C5: for a well-formed verb node, defineVerbHandler makes exactly one
registration (one route appended) for the lowercased verb at the path, with
the middleware units ordered before-hooks, validation, sanitization,
execution, after-hooks; with a view instead of an action the render unit
takes the place of the validate/sanitize/execute block; and a node whose
assembled pipeline is empty (here: a defined but falsy view and no hooks)
registers nothing and raises no error. -/
theorem defineVerbHandler_pipeline (b : Builder) (verb path : String)
    (before after : List String) (options : Option String)
    (hverb : strToLower verb ∈ expressRouterMethods) :
    (∀ a m vf sf ef, a ≠ "" → resolveController b a = .ok m →
      m.call { path := path, options := options }
          = .obj (some (.vfunc vf)) (some sf) (some ef) →
      defineVerbHandler b verb path
          { before := some before, action := some a, view := none,
            options := options, after := some after }
        = .ok (registerRoute b (strToLower verb) path
            (before.map .raw
              ++ [.validateFn vf, .sanitizeFn sf, .executeFn ef]
              ++ after.map .raw)) ())
  ∧ (∀ v, v ≠ "" →
      defineVerbHandler b verb path
          { before := some before, action := none, view := some v,
            options := options, after := some after }
        = .ok (registerRoute b (strToLower verb) path
            (before.map .raw ++ [.renderView v] ++ after.map .raw)) ())
  ∧ defineVerbHandler b verb path
        { before := none, action := none, view := some "", options := none,
          after := none }
      = .ok b () := by
  refine ⟨fun a m vf sf ef ha hres hcall => ?_, fun v hv => ?_, ?_⟩
  · simp [defineVerbHandler, hverb, strTruthy, ha, hres, hcall]
  · simp [defineVerbHandler, hverb, strTruthy, hv]
  · simp [defineVerbHandler, hverb, strTruthy]

/-- C5 witness: a GET node with one before hook, an action resolving to the
full descriptor, and one after hook registers exactly the pipeline
pre, validate, sanitize, execute, post under get; and the empty-pipeline
node is a silent no-op. -/
theorem defineVerbHandler_pipeline_witness :
    defineVerbHandler demoBuilder "GET" "/things"
        { before := some ["pre"], action := some "demo@doIt", view := none,
          options := none, after := some ["post"] }
      = .ok (registerRoute demoBuilder "get" "/things"
          [.raw "pre", .validateFn "checkBody", .sanitizeFn "cleanBody",
           .executeFn "runAction", .raw "post"]) ()
  ∧ defineVerbHandler demoBuilder "GET" "/things"
        { before := none, action := none, view := some "", options := none,
          after := none }
      = .ok demoBuilder () :=
  ⟨(defineVerbHandler_pipeline demoBuilder "GET" "/things" ["pre"] ["post"] none
      (by decide)).1 "demo@doIt" fullMethod "checkBody" "cleanBody" "runAction"
      (by decide) rfl rfl,
   (defineVerbHandler_pipeline demoBuilder "GET" "/things" ["pre"] ["post"] none
      (by decide)).2.2⟩

/-- C8: when a parameter name is already cached, a second addParameter call
without override returns with builder and router untouched; a second call
with override true registers the new handler on the router primitive (so
the handler in effect for the stripped name becomes the new one) and leaves
the cache unchanged. -/
theorem addParameter_idempotent_unless_override (b : Builder) (param : String)
    (newHandler : String) (opts : ParamOpts)
    (hc : param ∈ b.paramsCache) :
    addParameter b param opts false = .ok b ()
  ∧ addParameter b param (.pfunc newHandler) true
      = .ok { b with router := { b.router with
            params := b.router.params ++ [(strDrop param 1, newHandler)] } } ()
  ∧ paramHandlerInEffect
        { b.router with params := b.router.params ++ [(strDrop param 1, newHandler)] }
        (strDrop param 1)
      = some newHandler := by
  refine ⟨?_, ?_, ?_⟩
  · simp [addParameter, hc]
  · simp [addParameter, hc]
  · simp [paramHandlerInEffect, List.find?]

/-- C8 witness: on a builder that already registered :id, a repeat call
without override is a no-op; a repeat call with override appends a new
registration for id, and the handler in effect for id becomes the new
one. -/
theorem addParameter_idempotent_unless_override_witness :
    addParameter paramBuilder ":id" (.pfunc "ignored") false = .ok paramBuilder ()
  ∧ addParameter paramBuilder ":id" (.pfunc "secondHandler") true
      = .ok { paramBuilder with router := { paramBuilder.router with
            params := paramBuilder.router.params ++ [("id", "secondHandler")] } } ()
  ∧ paramHandlerInEffect
        { paramBuilder.router with
          params := paramBuilder.router.params ++ [("id", "secondHandler")] } "id"
      = some "secondHandler" :=
  addParameter_idempotent_unless_override paramBuilder ":id" "secondHandler"
    (.pfunc "ignored") (by decide)

/-- C9: addParameter never checks for the parameter sigil: for any
uncached name, it strips the first character unconditionally and registers
the handler under the stripped name, succeeding rather than rejecting. -/
theorem addParameter_strips_first_char (b : Builder) (param handler : String)
    (hnc : param ∉ b.paramsCache) :
    addParameter b param (.pfunc handler) false
      = .ok { b with
          router := { b.router with
            params := b.router.params ++ [(strDrop param 1, handler)] },
          paramsCache := b.paramsCache ++ [param] } () := by
  simp [addParameter, hnc]

/-- C9 witness: the sigil-less name userId is silently registered under
serId, its first-character-stripped form. -/
theorem addParameter_strips_first_char_witness :
    addParameter demoBuilder "userId" (.pfunc "loadUser") false
      = .ok { demoBuilder with
          router := { demoBuilder.router with params := [("serId", "loadUser")] },
          paramsCache := ["userId"] } () :=
  addParameter_strips_first_char demoBuilder "userId" "loadUser" (by decide)

end Blueprint
